import Mathlib

/-!
Verification development for QuantLib's matrix-based base-correlation term
structure (`ql/experimental/credit/basecorrelationstructure.hpp`).

Shallow embedding conventions:
* `Date` is a serial day number (`Int`); `Period` is a day count (`Int`),
  so `start + tenor` models QuantLib's `Date + Period` and `0` models
  `0*Days`.
* `Real`/`Time` values are rationals.
* Collaborators that the header only calls (calendar adjustment/advance,
  `cdsMaturity`, `MakeSchedule`, day-count year fractions) are passed in as
  function fields of `DateCtx`, mirroring the interface they expose.
* `QL_REQUIRE` failures become structured `Except.error` values; each error
  constructor carries exactly the data interpolated into the corresponding
  C++ message (ordinal positions and the compared values).
-/

namespace BaseCorrelation

abbrev Date := Int

abbrev Period := Int

/-- Date-generation rules distinguished by the constructor: the three
CDS-style roll variants it tests for, plus the remaining rules. -/
inductive DGRule where
  | CDS2015
  | CDS
  | OldCDS
  | Backward
  | Forward
deriving DecidableEq, Repr

/-- Structured rendering of the `QL_REQUIRE` failure messages of
`BaseCorrelationTermStructure` (all are invalid-input errors except
`extrapolationNotAllowed`, which models the interpolation range check). -/
inductive QLErr where
  | firstTenorNotPositive (t0 : Period)
  | nonIncreasingTenors (i : Nat) (prev cur : Period)
  | firstLossNotPositive (l0 : Rat)
  | firstLossAboveOne (l0 : Rat)
  | nonIncreasingLosses (i : Nat) (prev cur : Rat)
  | lossAboveOne (i : Nat) (l : Rat)
  | emptyTrancheDates
  | rowsMismatch (nLosses volRows : Nat)
  | colsMismatch (nTenors volCols : Nat)
  | extrapolationNotAllowed
deriving DecidableEq, Repr

/-- Loop body of `checkTrancheTenors`: for `i = 1, 2, ...` requires
`tenors[i] > tenors[i-1]`; `prev` is `tenors[i-1]`, carried ordinal `i`. -/
def checkTenorsFrom : Nat → Period → List Period → Except QLErr Unit
  | _, _, [] => .ok ()
  | i, prev, t :: rest =>
      if prev < t then checkTenorsFrom (i + 1) t rest
      else .error (.nonIncreasingTenors i prev t)

/-- `BaseCorrelationTermStructure::checkTrancheTenors`: requires
`tenors_[0] > 0*Days` and strictly increasing tenors.  (On an empty vector
the C++ reads `tenors_[0]` out of bounds; the claims only concern nonempty
tenor sequences.) -/
def checkTrancheTenors : List Period → Except QLErr Unit
  | [] => .ok ()
  | t0 :: rest =>
      if 0 < t0 then checkTenorsFrom 1 t0 rest
      else .error (.firstTenorNotPositive t0)

/-- Loop body of `checkLosses`: requires `lossLevel[i] > lossLevel[i-1]`
and then `lossLevel[i] <= 1`, in that order, with `i` the index of the
current element. -/
def checkLossesFrom : Nat → Rat → List Rat → Except QLErr Unit
  | _, _, [] => .ok ()
  | i, prev, l :: rest =>
      if prev < l then
        if l ≤ 1 then checkLossesFrom (i + 1) l rest
        else .error (.lossAboveOne i l)
      else .error (.nonIncreasingLosses i prev l)

/-- `BaseCorrelationTermStructure::checkLosses`: requires
`lossLevel_[0] > 0`, `lossLevel_[0] <= 1`, then strict increase and the
`<= 1` bound for every later level.  Note: the constructor never calls
this member. -/
def checkLosses : List Rat → Except QLErr Unit
  | [] => .ok ()
  | l0 :: rest =>
      if 0 < l0 then
        if l0 ≤ 1 then checkLossesFrom 1 l0 rest
        else .error (.firstLossAboveOne l0)
      else .error (.firstLossNotPositive l0)

/-- `BaseCorrelationTermStructure::checkInputs(volRows, volsColumns)`:
requires `nLosses_ == volRows` then `tenors_.size() == volsColumns`. -/
def checkInputs (nLosses nTenors volRows volCols : Nat) : Except QLErr Unit :=
  if nLosses ≠ volRows then .error (.rowsMismatch nLosses volRows)
  else if nTenors ≠ volCols then .error (.colsMismatch nTenors volCols)
  else .ok ()

/-- Collaborator interfaces the header consumes (spec §6): the calendar's
`advance`/`adjust` (business-day convention already applied), the free
function `cdsMaturity`, the last date of the quarterly `MakeSchedule`
built from `start` to the computed end date, the term structure's
reference date and `timeFromReference`. -/
structure DateCtx where
  refDate : Date
  advance : Date → Period → Date
  adjust : Date → Date
  cdsMaturity : Date → Period → DGRule → Date
  scheduleBack : Date → Date → DGRule → Date
  timeFromRef : Date → Rat

/-- The rules for which the constructor replaces `start + tenor` with
`cdsMaturity(start, tenor, rule)`. -/
def isCdsRule : DGRule → Bool
  | .CDS2015 => true
  | .CDS => true
  | .OldCDS => true
  | _ => false

/-- One iteration of the constructor's maturity-generation loop: without a
rule, `calendar.advance(start, tenor, bdc)`; with a rule, the end date
(`cdsMaturity` for the three CDS rules, else `start + tenor`) is run
through the quarterly schedule and the schedule's last date is
calendar-adjusted. -/
def genMaturity (ctx : DateCtx) (rule : Option DGRule) (start : Date) (tenor : Period) : Date :=
  match rule with
  | none => ctx.advance start tenor
  | some r =>
      let d := if isCdsRule r then ctx.cdsMaturity start tenor r else start + tenor
      ctx.adjust (ctx.scheduleBack start d r)

/-- The constructor's `trancheDates_`: generated maturities with every
date `d <= refDate` skipped ("only keep future dates"). -/
def survivingDates (ctx : DateCtx) (rule : Option DGRule) (start : Date)
    (tenors : List Period) : List Date :=
  (tenors.map (genMaturity ctx rule start)).filter (fun d => decide (ctx.refDate < d))

/-- The surface state the header stores: the members of
`BaseCorrelationTermStructure` that the claims concern.  `correlCols`
records `correlations_.columns()` (a `Matrix` keeps its column count even
with zero rows); `correlations` is the snapshot entries row by row.  The
quote-handle table itself is externally owned, so its current values are
passed to the operations that read it. -/
structure BCState where
  tenors : List Period
  lossLevel : List Rat
  nLosses : Nat
  trancheDates : List Date
  trancheTimes : List Rat
  correlCols : Nat
  correlations : List (List Rat)
deriving DecidableEq, Repr, Inhabited

/-- `BaseCorrelationTermStructure::updateMatrix`: with
`tenorStartIndex = correlHandles_.front().size() - correlations_.columns()`,
sets `correlations_[i][j] = correlHandles_[i][tenorStartIndex + j]->value()`
for every row `i` and column `j` of the snapshot.  `quotes` holds the
current values of the handle table. -/
def updateMatrix (quotes : List (List Rat)) (s : BCState) : BCState :=
  let tenorStartIndex := (quotes.headD []).length - s.correlCols
  { s with correlations :=
      (List.range s.correlations.length).map (fun i =>
        (List.range s.correlCols).map (fun j =>
          (quotes.getD i []).getD (tenorStartIndex + j) 0)) }

/-- `BaseCorrelationTermStructure::initializeTrancheTimes`:
`trancheTimes_[i] = timeFromReference(trancheDates_[i])`. -/
def initializeTrancheTimes (ctx : DateCtx) (s : BCState) : BCState :=
  { s with trancheTimes := s.trancheDates.map ctx.timeFromRef }

/-- Constructor body after `checkTrancheTenors` has passed: build
`trancheDates_`, require it nonempty, allocate the
`correls.size() × trancheDates_.size()` zero matrix, initialize tranche
times, run `checkInputs`, then `updateMatrix` (registration with market
data and `setupInterpolation` have no effect on these fields; queries
re-derive the interpolation from the stored grids). -/
def constructCore (ctx : DateCtx) (tenors : List Period) (lossLevel : List Rat)
    (correls : List (List Rat)) (startDate : Option Date) (rule : Option DGRule) :
    Except QLErr BCState :=
  let start := startDate.getD ctx.refDate
  let ds := survivingDates ctx rule start tenors
  if ds.isEmpty then .error .emptyTrancheDates
  else
    match checkInputs lossLevel.length tenors.length correls.length ds.length with
    | .error e => .error e
    | .ok _ =>
        .ok (updateMatrix correls (initializeTrancheTimes ctx
          { tenors := tenors, lossLevel := lossLevel, nLosses := lossLevel.length,
            trancheDates := ds, trancheTimes := [], correlCols := ds.length,
            correlations := List.replicate correls.length (List.replicate ds.length 0) }))

/-- `BaseCorrelationTermStructure::BaseCorrelationTermStructure`: the
settlement days, calendar, conventions and day counter are absorbed into
`ctx`; `correls` doubles as the handle table and its current values. -/
def construct (ctx : DateCtx) (tenors : List Period) (lossLevel : List Rat)
    (correls : List (List Rat)) (startDate : Option Date) (rule : Option DGRule) :
    Except QLErr BCState :=
  match checkTrancheTenors tenors with
  | .error e => .error e
  | .ok _ => constructCore ctx tenors lossLevel correls startDate rule

/-- `maxDate()`: `trancheDates_.back()` (default for the empty case, which
the C++ leaves undefined). -/
def maxDate (s : BCState) : Date :=
  s.trancheDates.getLastD 0

/-- Modelled from the spec: `TermStructure::update` (base class, not under
`src/`) notifies observers and flags the lazily recalculated reference
date; per spec §6 it "propagates to base reference-date recalculation" and
touches none of the surface fields modelled in `BCState`. -/
def termStructureUpdate (s : BCState) : BCState := s

/-- `BaseCorrelationTermStructure::update`: `updateMatrix()` then
`TermStructure::update()`. -/
def update (quotes : List (List Rat)) (s : BCState) : BCState :=
  termStructureUpdate (updateMatrix quotes s)

/-- Modelled from the spec: the `Interpolation2D` grid-bounds test (its
implementation is not under `src/`): a query point is in range when it
lies within the closed rectangle spanned by the first and last grid
abscissae on each axis. -/
def inGridRange (xs ys : List Rat) (x y : Rat) : Bool :=
  (decide (xs.headD 0 ≤ x) && decide (x ≤ xs.getLastD 0)) &&
    (decide (ys.headD 0 ≤ y) && decide (y ≤ ys.getLastD 0))

/-- Modelled from the spec: an `Interpolation2D` call
`interpolation_(x, y, allowExtrapolation)` (implementation not under
`src/`) fails with `ExtrapolationNotAllowed` when the point is outside the
grid bounds and extrapolation is disabled, and otherwise evaluates the
chosen algorithm `alg` on the grids; `alg` stands for the pluggable
`Interpolator2D_T` template parameter. -/
def interp2Dquery (alg : List Rat → List Rat → List (List Rat) → Rat → Rat → Rat)
    (xs ys : List Rat) (z : List (List Rat)) (x y : Rat) (allowExtrapolation : Bool) :
    Except QLErr Rat :=
  if allowExtrapolation || inGridRange xs ys x y then .ok (alg xs ys z x y)
  else .error .extrapolationNotAllowed

/-- `BaseCorrelationTermStructure::correlation(Time, Real, bool)`: the
body is `interpolation_(t, lossLevel, true)` — the literal `true` is
passed to the interpolation regardless of the `extrapolate` argument. -/
def correlation (alg : List Rat → List Rat → List (List Rat) → Rat → Rat → Rat)
    (s : BCState) (t lossLev : Rat) (extrapolate : Bool) : Except QLErr Rat :=
  interp2Dquery alg s.trancheTimes s.lossLevel s.correlations t lossLev true

/-! ### Concrete fixtures used by the claim theorems and witnesses -/

/-- A concrete collaborator context: reference date 0, calendar advance
and adjustment acting as plain day arithmetic, year fractions equal to
the day count. -/
def exCtx : DateCtx :=
  { refDate := 0
    advance := fun d p => d + p
    adjust := fun d => d
    cdsMaturity := fun d p _ => d + p
    scheduleBack := fun _ d _ => d
    timeFromRef := fun d => mkRat d 1 }

/-- A concrete interpolation algorithm standing in for the
`Interpolator2D_T` template argument. -/
def exAlg : List Rat → List Rat → List (List Rat) → Rat → Rat → Rat :=
  fun _ _ _ x _ => x

/-- A surface actually produced by `construct` with tenors of 90 and 180
days, a single loss level and a 1×2 quote table. -/
def exSurface : BCState :=
  ((construct exCtx [90, 180] [1] [[mkRat 3 10, mkRat 6 10]] none none).toOption).getD default

/-- `exCtx` after the reference date / day counter moved: year fractions
are now day count over 365. -/
def staleCtx : DateCtx :=
  { exCtx with timeFromRef := fun d => mkRat d 365 }

/-- A constructed surface state whose `trancheTimes` were computed with
the old context (`timeFromRef` the identity). -/
def staleState : BCState :=
  { tenors := [90, 180], lossLevel := [1], nLosses := 1,
    trancheDates := [90, 180], trancheTimes := [90, 180],
    correlCols := 2, correlations := [[mkRat 1 2, mkRat 1 2]] }

/-- Fixture quotes for the tail-alignment witness: one row of the handle
table with two original tenor columns. -/
def wQuotes : List (List Rat) := [[3, 4]]

/-- Fixture state for the tail-alignment witness: one surviving column of
an originally two-column table. -/
def wState : BCState :=
  { tenors := [180], lossLevel := [1], nLosses := 1,
    trancheDates := [180], trancheTimes := [180],
    correlCols := 1, correlations := [[0]] }

/-! ### Helper lemmas -/

theorem checkTenorsFrom_ok (rest : List Period) : ∀ (i : Nat) (prev : Period),
    List.Chain (· < ·) prev rest → checkTenorsFrom i prev rest = .ok () := by
  induction rest with
  | nil => intro i prev _; rfl
  | cons t ts ih =>
      intro i prev h
      cases h with
      | cons hlt hch =>
          simp only [checkTenorsFrom, if_pos hlt]
          exact ih _ _ hch

theorem checkTrancheTenors_ok_of (t0 : Period) (rest : List Period) (h0 : 0 < t0)
    (h : List.Chain (· < ·) t0 rest) : checkTrancheTenors (t0 :: rest) = .ok () := by
  simp only [checkTrancheTenors, if_pos h0]
  exact checkTenorsFrom_ok rest 1 t0 h

theorem checkTenorsFrom_err (pre : List Period) :
    ∀ (i : Nat) (a prev cur : Period) (post : List Period),
    List.Chain (· < ·) a (pre ++ [prev]) → cur ≤ prev →
    checkTenorsFrom i a (pre ++ prev :: cur :: post)
      = .error (.nonIncreasingTenors (i + pre.length + 1) prev cur) := by
  induction pre with
  | nil =>
      intro i a prev cur post hch hv
      cases hch with
      | cons hlt _ =>
          simp only [List.nil_append, checkTenorsFrom, if_pos hlt,
            if_neg (not_lt.mpr hv), List.length_nil, Nat.add_zero]
  | cons b pre' ih =>
      intro i a prev cur post hch hv
      cases hch with
      | cons hlt hch' =>
          simp only [List.cons_append, checkTenorsFrom, if_pos hlt]
          have hidx : i + (b :: pre').length + 1 = (i + 1) + pre'.length + 1 := by
            simp only [List.length_cons]
            omega
          rw [hidx]
          exact ih (i + 1) b prev cur post hch' hv

theorem getLastD_map_of_ne_nil {α β : Type} (f : α → β) (l : List α) (hl : l ≠ [])
    (a : α) (b : β) : (l.map f).getLastD b = f (l.getLastD a) := by
  simp only [List.getLastD_eq_getLast?, List.getLast?_map]
  cases h : l.getLast? with
  | none => exact absurd (List.getLast?_eq_none_iff.mp h) hl
  | some x => rfl

theorem construct_eq_core (ctx : DateCtx) (tenors : List Period) (lossLevel : List Rat)
    (correls : List (List Rat)) (startDate : Option Date) (rule : Option DGRule)
    (h : checkTrancheTenors tenors = .ok ()) :
    construct ctx tenors lossLevel correls startDate rule
      = constructCore ctx tenors lossLevel correls startDate rule := by
  simp [construct, h]

/-! ### Claim theorems -/

/-- Claim C1: with tenors {90, 180, 360} days and the first maturity
expired (start date −100, so the 90-day maturity falls on −10 ≤ reference
date 0), the spec says construction succeeds with a 3×2 snapshot; the
constructor instead aborts in `checkInputs`, because it compares the full
tenor count (3) against the surviving column count (2). -/
theorem claim1_expired_tenor_construction_rejected :
    construct exCtx [90, 180, 360] [mkRat 3 100, mkRat 7 100, mkRat 1 10]
        [[mkRat 1 10, mkRat 2 10, mkRat 3 10], [mkRat 2 10, mkRat 3 10, mkRat 4 10],
         [mkRat 3 10, mkRat 4 10, mkRat 5 10]]
        (some (-100)) none
      = .error (.colsMismatch 3 2) := rfl

/-- Claim C2: the query point t = 1000 lies outside the time grid
[90, 180] of `exSurface`, yet `correlation` with `extrapolate = false`
returns a value instead of failing with `ExtrapolationNotAllowed`,
because the body forwards the literal `true` to the interpolation. -/
theorem claim2_extrapolate_flag_ignored :
    inGridRange exSurface.trancheTimes exSurface.lossLevel 1000 1 = false ∧
      correlation exAlg exSurface 1000 1 false = .ok 1000 :=
  ⟨rfl, rfl⟩

/-- Claim C3: the loss levels [1/2, 1/4] are not strictly increasing, so
`checkLosses` rejects them — but the constructor never calls
`checkLosses`, and construction succeeds. -/
theorem claim3_loss_validation_skipped :
    checkLosses [mkRat 1 2, mkRat 1 4] = .error (.nonIncreasingLosses 1 (mkRat 1 2) (mkRat 1 4)) ∧
      (construct exCtx [90] [mkRat 1 2, mkRat 1 4] [[mkRat 3 10], [mkRat 4 10]] none none).toOption.isSome = true :=
  ⟨rfl, rfl⟩

/-- Claim C4, counterexample: after the reference-date/day-count context
moved to `staleCtx`, recomputing the time grid would give
[90/365, 180/365], but `update` leaves the old values [90, 180] in
place — it does not recompute `trancheTimes` from the current reference
date. -/
theorem claim4_update_keeps_stale_times :
    (update [[mkRat 1 2, mkRat 1 2]] staleState).trancheTimes = [90, 180] ∧
      (initializeTrancheTimes staleCtx staleState).trancheTimes = [mkRat 90 365, mkRat 180 365] ∧
      ([90, 180] : List Rat) ≠ [mkRat 90 365, mkRat 180 365] :=
  ⟨rfl, rfl, by decide⟩

/-- Claim C4, amended: `update` refreshes only the correlation snapshot
(it equals `updateMatrix` followed by the base-class update, which leaves
every modelled field alone); the maturity time grid and the maturity date
grid are untouched. -/
theorem claim4_update_refreshes_snapshot_only (quotes : List (List Rat)) (s : BCState) :
    update quotes s = updateMatrix quotes s ∧
      (update quotes s).trancheTimes = s.trancheTimes ∧
      (update quotes s).trancheDates = s.trancheDates :=
  ⟨rfl, rfl, rfl⟩

/-- Claim C10: `updateMatrix` rewrites only the snapshot matrix — the
tenor sequence, loss levels, maturity date grid, maturity time grid and
column count are all unchanged (the quote table is a read-only input). -/
theorem claim10_updateMatrix_frame (quotes : List (List Rat)) (s : BCState) :
    (updateMatrix quotes s).tenors = s.tenors ∧
      (updateMatrix quotes s).lossLevel = s.lossLevel ∧
      (updateMatrix quotes s).nLosses = s.nLosses ∧
      (updateMatrix quotes s).trancheDates = s.trancheDates ∧
      (updateMatrix quotes s).trancheTimes = s.trancheTimes ∧
      (updateMatrix quotes s).correlCols = s.correlCols :=
  ⟨rfl, rfl, rfl, rfl, rfl, rfl⟩

/-- Claim C5: after a snapshot rebuild, entry `[i][j]` of the snapshot
equals the quote value at row `i`, table column `T - T' + j`, where `T` is
the original tenor-column count of the handle table and `T'` the surviving
column count, for every valid row and column. -/
theorem claim5_snapshot_tail_alignment (quotes : List (List Rat)) (s : BCState)
    (i j : Nat) (hi : i < s.correlations.length) (hj : j < s.correlCols) :
    ((updateMatrix quotes s).correlations.getD i []).getD j 0
      = (quotes.getD i []).getD ((quotes.headD []).length - s.correlCols + j) 0 := by
  simp [updateMatrix, List.getD_eq_getElem?_getD, List.getElem?_map, List.getElem?_range, hi, hj]

/-- Witness for C5: one surviving column of a two-column table picks the
second table column (offset 1). -/
theorem claim5_snapshot_tail_alignment_witness :
    ((updateMatrix wQuotes wState).correlations.getD 0 []).getD 0 0
      = (wQuotes.getD 0 []).getD ((wQuotes.headD []).length - wState.correlCols + 0) 0 :=
  claim5_snapshot_tail_alignment wQuotes wState 0 0 (by decide) (by decide)

/-- Claim C9: calling `update` twice with unchanged quote values yields
the same state as calling it once, and every subsequent correlation query
agrees. -/
theorem claim9_update_idempotent (quotes : List (List Rat)) (s : BCState)
    (alg : List Rat → List Rat → List (List Rat) → Rat → Rat → Rat)
    (t lossLev : Rat) (ex : Bool) :
    update quotes (update quotes s) = update quotes s ∧
      correlation alg (update quotes (update quotes s)) t lossLev ex
        = correlation alg (update quotes s) t lossLev ex := by
  have h : update quotes (update quotes s) = update quotes s := by
    simp [update, termStructureUpdate, updateMatrix]
  exact ⟨h, by rw [h]⟩

/-- Claim C7: when every generated maturity falls on or before the
reference date, construction fails with the single surface-level
invalid-input error `emptyTrancheDates` ("no tranche dates left after
removing expired tenors"), not with a per-date error. -/
theorem claim7_all_expired_fails (ctx : DateCtx) (tenors : List Period)
    (lossLevel : List Rat) (correls : List (List Rat)) (startDate : Option Date)
    (rule : Option DGRule)
    (hten : checkTrancheTenors tenors = .ok ())
    (hall : ∀ t ∈ tenors, genMaturity ctx rule (startDate.getD ctx.refDate) t ≤ ctx.refDate) :
    construct ctx tenors lossLevel correls startDate rule = .error .emptyTrancheDates := by
  have hds : survivingDates ctx rule (startDate.getD ctx.refDate) tenors = [] := by
    apply List.filter_eq_nil_iff.mpr
    intro d hd
    simp only [List.mem_map] at hd
    obtain ⟨t, ht, rfl⟩ := hd
    simpa using not_lt.mpr (hall t ht)
  rw [construct_eq_core ctx tenors lossLevel correls startDate rule hten]
  simp [constructCore, hds]

/-- Witness for C7: a single 30-day tenor from start date 0 matures at 30,
on or before the reference date 1000, so every date is discarded. -/
theorem claim7_all_expired_fails_witness :
    construct { exCtx with refDate := 1000 } [30] [1] [[mkRat 1 2]] (some 0) none
      = .error .emptyTrancheDates :=
  claim7_all_expired_fails { exCtx with refDate := 1000 } [30] [1] [[mkRat 1 2]]
    (some 0) none rfl (by decide)

/-- Claim C6: for strictly increasing tenors (first positive) and loss
levels within their domain bounds, with every generated maturity strictly
after the reference date and a quote table with one row per loss level,
construction succeeds; the maturity grid is the generated maturity of
every tenor, and `maxDate` is the generated maturity of the last tenor
(calendar advance without a policy, adjusted CDS-roll schedule end with
one, per `genMaturity`). -/
theorem claim6_maxdate_last_tenor (ctx : DateCtx) (tenors : List Period)
    (lossLevel : List Rat) (correls : List (List Rat)) (startDate : Option Date)
    (rule : Option DGRule)
    (hne : tenors ≠ [])
    (hpos : 0 < tenors.headD 1)
    (hinc : tenors.Chain' (· < ·))
    (hl0 : 0 < lossLevel.headD 1)
    (hlinc : lossLevel.Chain' (· < ·))
    (hl1 : ∀ l ∈ lossLevel, l ≤ 1)
    (hrows : correls.length = lossLevel.length)
    (hfut : ∀ t ∈ tenors, ctx.refDate < genMaturity ctx rule (startDate.getD ctx.refDate) t) :
    (construct ctx tenors lossLevel correls startDate rule).toOption.map
        (fun s => (s.trancheDates, maxDate s))
      = some (tenors.map (genMaturity ctx rule (startDate.getD ctx.refDate)),
          genMaturity ctx rule (startDate.getD ctx.refDate) (tenors.getLastD 1)) := by
  obtain ⟨t0, rest, rfl⟩ := List.exists_cons_of_ne_nil hne
  have hch : List.Chain (· < ·) t0 rest := hinc
  have hten : checkTrancheTenors (t0 :: rest) = .ok () :=
    checkTrancheTenors_ok_of t0 rest (by simpa using hpos) hch
  have hds : survivingDates ctx rule (startDate.getD ctx.refDate) (t0 :: rest)
      = (t0 :: rest).map (genMaturity ctx rule (startDate.getD ctx.refDate)) := by
    apply List.filter_eq_self.mpr
    intro d hd
    simp only [List.mem_map] at hd
    obtain ⟨t, ht, rfl⟩ := hd
    simpa using hfut t ht
  rw [construct_eq_core ctx _ lossLevel correls startDate rule hten]
  simp only [constructCore, hds, List.map_cons, List.isEmpty_cons, checkInputs,
    List.length_cons, List.length_map, hrows]
  simp only [Bool.false_eq_true, if_false]
  rw [if_neg (by simp : ¬ lossLevel.length ≠ lossLevel.length),
    if_neg (by simp : ¬ rest.length + 1 ≠ rest.length + 1)]
  simp only [Except.toOption, Option.map_some, Option.map_some', Option.some.injEq,
    Prod.mk.injEq]
  refine ⟨?_, ?_⟩
  · simp [updateMatrix, initializeTrancheTimes]
  · simp only [updateMatrix, initializeTrancheTimes, maxDate]
    rw [show genMaturity ctx rule (startDate.getD ctx.refDate) t0 ::
          List.map (genMaturity ctx rule (startDate.getD ctx.refDate)) rest
        = List.map (genMaturity ctx rule (startDate.getD ctx.refDate)) (t0 :: rest)
      from rfl]
    exact getLastD_map_of_ne_nil _ (t0 :: rest) hne 1 0

/-- Witness for C6: tenors of 30 and 60 days, one loss level, a 1×2 quote
table; both maturities are future, so construction succeeds and `maxDate`
is the advanced 60-day maturity. -/
theorem claim6_maxdate_last_tenor_witness :
    (construct exCtx [30, 60] [1] [[mkRat 1 2, mkRat 3 5]] none none).toOption.map
        (fun s => (s.trancheDates, maxDate s))
      = some ([30, 60].map (genMaturity exCtx none ((none : Option Date).getD exCtx.refDate)),
          genMaturity exCtx none ((none : Option Date).getD exCtx.refDate)
            ([30, 60].getLastD 1)) :=
  claim6_maxdate_last_tenor exCtx [30, 60] [1] [[mkRat 1 2, mkRat 3 5]] none none
    (by decide) (by decide) (List.chain'_cons.mpr ⟨by decide, List.chain'_singleton _⟩)
    (by decide) (List.chain'_singleton _) (by decide) (by decide) (by decide)

/-- Claim C8: construction fails when the first tenor is not strictly
positive, with an error carrying that tenor; and when some tenor does not
strictly exceed its predecessor, with an error carrying the 1-based
ordinal position of the predecessor and both compared tenor values
(mirroring the `io::ordinal(i)` / `io::ordinal(i+1)` message). -/
theorem claim8_tenor_validation :
    (∀ (ctx : DateCtx) (lossLevel : List Rat) (correls : List (List Rat))
        (startDate : Option Date) (rule : Option DGRule) (t0 : Period)
        (rest : List Period), t0 ≤ 0 →
        construct ctx (t0 :: rest) lossLevel correls startDate rule
          = .error (.firstTenorNotPositive t0)) ∧
    (∀ (ctx : DateCtx) (lossLevel : List Rat) (correls : List (List Rat))
        (startDate : Option Date) (rule : Option DGRule) (t0 prev cur : Period)
        (mid post : List Period),
        0 < t0 → List.Chain (· < ·) t0 (mid ++ [prev]) → cur ≤ prev →
        construct ctx (t0 :: (mid ++ prev :: cur :: post)) lossLevel correls startDate rule
          = .error (.nonIncreasingTenors (mid.length + 2) prev cur)) := by
  constructor
  · intro ctx lossLevel correls startDate rule t0 rest h
    simp [construct, checkTrancheTenors, not_lt.mpr h]
  · intro ctx lossLevel correls startDate rule t0 prev cur mid post h0 hch hv
    have herr := checkTenorsFrom_err mid 1 t0 prev cur post hch hv
    have hidx : 1 + mid.length + 1 = mid.length + 2 := by omega
    rw [hidx] at herr
    simp only [construct, checkTrancheTenors, if_pos h0, herr]

/-- Witness for C8: a nonpositive first tenor (−5) is rejected with that
value; the sequence [30, 90, 60] is rejected at ordinal 2 with the pair
(90, 60). -/
theorem claim8_tenor_validation_witness :
    construct exCtx [-5] [1] [[mkRat 1 2]] none none
        = .error (.firstTenorNotPositive (-5)) ∧
      construct exCtx [30, 90, 60] [1] [[mkRat 1 2, mkRat 1 2, mkRat 1 2]] none none
        = .error (.nonIncreasingTenors 2 90 60) :=
  ⟨claim8_tenor_validation.1 exCtx [1] [[mkRat 1 2]] none none (-5) [] (by decide),
    claim8_tenor_validation.2 exCtx [1] [[mkRat 1 2, mkRat 1 2, mkRat 1 2]] none none
      30 90 60 [] [] (by decide) (List.Chain.cons (by decide) List.Chain.nil) (by decide)⟩

end BaseCorrelation
